import Mathlib

/-!
Verification of the NewBackBeu batch result proxy.

The repository has three handler variants:
* `src/api/result.js` — per-item variant: validates `reg_no`, `year`, `semester`,
  `exam_held`, generates a batch of 5 candidate registration numbers, fetches each,
  and maps every outcome to a `{regNo, status, data?, reason?}` record.
* `src/unnamed/part_001` — aggregate variant of the same endpoint: same validation
  and batch-of-5 generation, but the response is the bare array of successful data
  objects.
* `src/unnamed/part_000` — aggregate variant with hardcoded exam parameters and a
  fixed double range (suffixes 10–60 and 901–960), keyed by the `prefix` query
  parameter holding a full 11-digit registration number.

The embedding below models the JavaScript string and number primitives explicitly
(`padStart`, `parseInt`, `toUpperCase`, `slice`), JSON payloads as association
lists, and each upstream HTTP interaction as a value of `UpstreamBehavior`.
-/

/-! ## JavaScript string and number primitives -/

/-- Model of `s.slice(0, n)` for `0 ≤ n ≤ s.length` (take the first `n` characters). -/
def strTake (s : String) (n : Nat) : String := ⟨s.data.take n⟩

/-- Model of `s.slice(n)` for `0 ≤ n ≤ s.length` (drop the first `n` characters). -/
def strDrop (s : String) (n : Nat) : String := ⟨s.data.drop n⟩

/-- Model of `s.toUpperCase()` on ASCII strings. -/
def jsToUpper (s : String) : String := ⟨s.data.map Char.toUpper⟩

/-- Model of `s.padStart(3, '0')`: left-pad with zeros up to length 3. -/
def padStart3 (s : String) : String := ⟨List.replicate (3 - s.length) '0' ++ s.data⟩

/-- Value of a list of decimal digit characters, most significant first
(the accumulating loop inside `parseInt`). -/
def digitsToNat (ds : List Char) : Nat :=
  ds.foldl (fun acc c => acc * 10 + (c.toNat - 48)) 0

/-- Character class skipped by `parseInt` before the number. -/
def jsWhitespace (c : Char) : Bool :=
  c = ' ' || c = '\t' || c = '\n' || c = '\r'

/-- Model of JavaScript `parseInt(s, 10)`: skip leading whitespace, read an
optional sign, then the longest leading run of decimal digits; `none` models the
`NaN` result when that run is empty. -/
def jsParseInt (s : String) : Option Int :=
  let cs := s.data.dropWhile jsWhitespace
  let sign : Int := if cs.head? = some '-' then -1 else 1
  let rest := if cs.head? = some '-' ∨ cs.head? = some '+' then cs.tail else cs
  let ds := rest.takeWhile Char.isDigit
  if ds.isEmpty then none
  else some (sign * Int.ofNat (digitsToNat ds))

/-- Model of JavaScript `m || d` where `m` is a possibly-absent string: an absent
or empty (falsy) string falls back to the default `d`. -/
def jsOr (m : Option String) (d : String) : String :=
  match m with
  | none => d
  | some s => if s = "" then d else s

/-- Rendering of the upstream payload `status` field inside a template literal:
an absent field prints as `undefined`, a number prints as its decimal form. -/
def statusRepr (st : Option Int) : String :=
  match st with
  | none => "undefined"
  | some n => toString n

/-! ## Data model -/

/-- A JSON `data` object, modelled as an association list from field names to
serialized field values (field order preserved, names unique in practice). -/
abbrev DataObj : Type := List (String × String)

/-- The decoded JSON envelope returned by the upstream BEU API: its own `status`
code, an optional `message`, and an optional `data` object. `none` for `status`
models an absent (or non-numeric) field, which compares unequal to both 404 and
200 under strict equality; `none` for `data` models an absent or null field,
which is falsy. -/
structure JsonData where
  status : Option Int
  message : Option String
  data : Option DataObj
deriving DecidableEq

instance {ε α : Type} [DecidableEq ε] [DecidableEq α] : DecidableEq (Except ε α) := fun a b =>
  match a, b with
  | .error x, .error y =>
    if h : x = y then .isTrue (by rw [h]) else .isFalse (by intro hc; cases hc; exact h rfl)
  | .ok x, .ok y =>
    if h : x = y then .isTrue (by rw [h]) else .isFalse (by intro hc; cases hc; exact h rfl)
  | .error _, .ok _ => .isFalse (by intro hc; cases hc)
  | .ok _, .error _ => .isFalse (by intro hc; cases hc)

/-- One upstream HTTP interaction for one lookup key, as observed by the fetcher:
the request may abort on the per-request timeout, fail at the transport level
with an error message, or produce an HTTP response with a status code and a body
that either parses as JSON or throws a parse error with a message. -/
inductive UpstreamBehavior where
  | abortError
  | fetchFailure (msg : String)
  | httpResponse (code : Nat) (body : Except String JsonData)
deriving DecidableEq

/-- The four outcome tags produced by `fetchSingleResult` in the source. -/
inductive FetchStatus where
  | success
  | not_found
  | failed
  | error
deriving DecidableEq

/-- The classified result object returned by `fetchSingleResult`: a status tag,
the echoed registration number, and the optional `reason` and `data` fields. -/
structure FetchOutcome where
  status : FetchStatus
  regNo : String
  reason : Option String
  data : Option DataObj
deriving DecidableEq

/-- Model of `response.ok`: HTTP status code in the 200–299 range. -/
def httpOk (code : Nat) : Bool := 200 ≤ code && code ≤ 299

/-! ## Single-item fetchers, one per variant -/

/-- Fetcher of `src/api/result.js` (per-item variant). Non-2xx HTTP and payload
data errors are classified with the `error` tag; the upstream payload status 404
is classified `not_found`; timeouts and transport failures are caught and
classified `error`. -/
def fetchSingleResult_resultjs (regNo : String) (b : UpstreamBehavior) : FetchOutcome :=
  match b with
  | .abortError => ⟨.error, regNo, some "Request Timed Out", none⟩
  | .fetchFailure msg => ⟨.error, regNo, some ("Fetch Error: " ++ msg), none⟩
  | .httpResponse code body =>
    if httpOk code = false then
      ⟨.error, regNo, some ("BEU API Error: HTTP " ++ Nat.repr code), none⟩
    else
      match body with
      | .error msg => ⟨.error, regNo, some ("Fetch Error: " ++ msg), none⟩
      | .ok j =>
        if j.status = some 404 then
          ⟨.not_found, regNo, some (jsOr j.message "Record not found."), none⟩
        else if j.status ≠ some 200 ∨ j.data = none then
          ⟨.error, regNo,
            some ("BEU API Data Error: " ++ jsOr j.message ("Status " ++ statusRepr j.status)),
            none⟩
        else
          ⟨.success, regNo, none, j.data⟩

/-- Fetcher of `src/unnamed/part_001` (aggregate batch variant). Non-2xx HTTP
yields `failed` with reason `HTTP <code>`; payload status 404 yields `not_found`;
other payload problems yield `failed`; timeouts and transport failures are caught
and classified `error`. -/
def fetchSingleResult_part001 (regNo : String) (b : UpstreamBehavior) : FetchOutcome :=
  match b with
  | .abortError => ⟨.error, regNo, some "Request Timed Out", none⟩
  | .fetchFailure msg => ⟨.error, regNo, some ("Fetch Error: " ++ msg), none⟩
  | .httpResponse code body =>
    if httpOk code = false then
      ⟨.failed, regNo, some ("HTTP " ++ Nat.repr code), none⟩
    else
      match body with
      | .error msg => ⟨.error, regNo, some ("Fetch Error: " ++ msg), none⟩
      | .ok j =>
        if j.status = some 404 then
          ⟨.not_found, regNo, some (jsOr j.message "Record not found."), none⟩
        else if j.status ≠ some 200 ∨ j.data = none then
          ⟨.failed, regNo, some (jsOr j.message ("API Status " ++ statusRepr j.status)), none⟩
        else
          ⟨.success, regNo, none, j.data⟩

/-- Fetcher of `src/unnamed/part_000` (fixed-range aggregate variant). Non-2xx
HTTP yields `failed` with reason `HTTP <code>`; there is no payload-404 check;
payload problems yield `failed`; a timeout is caught as `error` with reason
`Request Timed Out` and any other thrown failure as `error` with the fixed
reason `Fetch Error` (the error message is logged, not returned). -/
def fetchSingleResult_part000 (regNo : String) (b : UpstreamBehavior) : FetchOutcome :=
  match b with
  | .abortError => ⟨.error, regNo, some "Request Timed Out", none⟩
  | .fetchFailure _ => ⟨.error, regNo, some "Fetch Error", none⟩
  | .httpResponse code body =>
    if httpOk code = false then
      ⟨.failed, regNo, some ("HTTP " ++ Nat.repr code), none⟩
    else
      match body with
      | .error _ => ⟨.error, regNo, some "Fetch Error", none⟩
      | .ok j =>
        if j.status ≠ some 200 ∨ j.data = none then
          ⟨.failed, regNo, some (jsOr j.message ("API Status " ++ statusRepr j.status)), none⟩
        else
          ⟨.success, regNo, none, j.data⟩

/-! ## Configuration and candidate generation -/

/-- `BATCH_SIZE` constant of `src/api/result.js` and `src/unnamed/part_001`. -/
def BATCH_SIZE : Nat := 5

/-- `FETCH_TIMEOUT` constant (milliseconds) of both result.js variants. -/
def FETCH_TIMEOUT : Nat := 8000

/-- `PREFIX_LENGTH` constant of `src/unnamed/part_000`. -/
def PREFIX_LENGTH : Nat := 8

/-- Suffix rendering of the batch loop in both result.js variants:
`(i >= 900) ? i.toString() : i.toString().padStart(3, '0')`. -/
def suffixString (i : Nat) : String :=
  if 900 ≤ i then Nat.repr i else padStart3 (Nat.repr i)

/-- Candidate generation loop of both result.js variants:
`for (let i = startNum; i <= startNum + BATCH_SIZE - 1; i++)` pushes
`prefix + suffix`; the loop body runs exactly `count` times
(`count = BATCH_SIZE ≥ 1`), at `i = startNum + k` for `k = 0 .. count-1`. -/
def generateKeys (pfx : String) (startNum : Nat) (count : Nat) : List String :=
  (List.range count).map (fun k => pfx ++ suffixString (startNum + k))

/-- Candidate generation of `src/unnamed/part_000`: suffixes 010–060 (the first
loop, 51 iterations, always zero-padded) then 901–960 (the second loop, 60
iterations, unpadded). -/
def generateRangeKeys (actualPfx : String) : List String :=
  ((List.range 51).map (fun k => actualPfx ++ padStart3 (Nat.repr (10 + k)))) ++
  ((List.range 60).map (fun k => actualPfx ++ Nat.repr (901 + k)))

/-! ## Request model and validation -/

/-- Recognized query parameters of the result.js endpoints. Each field is
`none` when the parameter is absent. `batch_size` is carried to model inbound
requests that supply it; no handler in the repository reads it. -/
structure Query where
  reg_no : Option String
  year : Option String
  semester : Option String
  exam_held : Option String
  batch_size : Option String
deriving DecidableEq

/-- Model of the test `reg_no && /^\d{11}$/.test(reg_no)`: present, exactly 11
characters, all decimal digits. -/
def elevenDigits (o : Option String) : Bool :=
  match o with
  | none => false
  | some s => s.length = 11 && s.data.all Char.isDigit

/-- Model of the test `year && !isNaN(parseInt(year))`. -/
def yearValid (o : Option String) : Bool :=
  match o with
  | none => false
  | some s => !(s = "") && (jsParseInt s).isSome

/-- The keys of `romanMap` in the source (its values 1..8 are all truthy). -/
def romanNumerals : List String :=
  ["I", "II", "III", "IV", "V", "VI", "VII", "VIII"]

/-- Model of `normalizedSemester && romanMap[normalizedSemester]` where
`normalizedSemester = semester?.toUpperCase()`. -/
def semesterValid (o : Option String) : Bool :=
  match o.map jsToUpper with
  | none => false
  | some ns => !(ns = "") && romanNumerals.contains ns

/-- Model of the test `exam_held` (present and non-empty, i.e. truthy). -/
def examHeldValid (o : Option String) : Bool :=
  match o with
  | none => false
  | some s => !(s = "")

/-- 400 message for a bad `reg_no`. -/
def msgRegNo : String :=
  "Invalid parameter. Use \"reg_no\" query parameter with a full 11-digit registration number."

/-- 400 message for a bad `year`. -/
def msgYear : String := "Missing or invalid \"year\" parameter."

/-- 400 message for a missing or unrecognized `semester` (one shared message). -/
def msgSemester : String := "Missing or invalid \"semester\" parameter (use Roman numerals I-VIII)."

/-- 400 message for a missing `exam_held`. -/
def msgExamHeld : String := "Missing required \"exam_held\" parameter."

/-- Validation logic shared verbatim by `src/api/result.js` and
`src/unnamed/part_001`. The `reg_no`/`year` checks write `validationError`
first; the `semester`/`exam_held` checks are a separate `if`/`else if` chain
that overwrites it, exactly as in the source. -/
def validationError (q : Query) : Option String :=
  let v1 : Option String :=
    if elevenDigits q.reg_no = false then some msgRegNo
    else if yearValid q.year = false then some msgYear
    else none
  if semesterValid q.semester = false then some msgSemester
  else if examHeldValid q.exam_held = false then some msgExamHeld
  else v1

/-! ## Responses and handlers -/

/-- The three CORS headers set unconditionally at the top of the handler in
`src/api/result.js` and `src/unnamed/part_001`. -/
def corsHeaders : List (String × String) :=
  [("Access-Control-Allow-Origin", "*"),
   ("Access-Control-Allow-Methods", "GET, OPTIONS"),
   ("Access-Control-Allow-Headers", "Content-Type")]

/-- One record of the per-item response array of `src/api/result.js`:
`{ regNo, status, data?, reason? }`. -/
structure ItemRecord where
  regNo : String
  status : String
  data : Option DataObj
  reason : Option String
deriving DecidableEq

/-- Response body shapes of the `src/api/result.js` handler. -/
inductive ApiBody where
  | empty
  | errMsg (error : String)
  | items (records : List ItemRecord)
deriving DecidableEq

/-- One HTTP response of the `src/api/result.js` handler, together with the
list of registration numbers for which `fetchSingleResult` was invoked (empty
exactly when no network call was made). -/
structure ApiResponse where
  status : Nat
  headers : List (String × String)
  body : ApiBody
  fetched : List String
deriving DecidableEq

/-- Field removal performed on a success in `src/api/result.js`:
`delete fetchResult.data.father_name; delete fetchResult.data.mother_name`. -/
def stripParents (d : DataObj) : DataObj :=
  (d.filter (fun p => !(p.1 = "father_name"))).filter (fun p => !(p.1 = "mother_name"))

/-- The per-outcome mapping of `src/api/result.js` (the `switch` over
`fetchResult.status`): success keeps data minus parent names, `not_found`
becomes the fixed message, and everything else (including the default case)
becomes the temporary-error record carrying the fetch reason. -/
def mapItem (fetchResult : FetchOutcome) : ItemRecord :=
  match fetchResult.status with
  | .success => ⟨fetchResult.regNo, "success", fetchResult.data.map stripParents, none⟩
  | .not_found => ⟨fetchResult.regNo, "Record not found", none, none⟩
  | _ => ⟨fetchResult.regNo, "Error fetching result (temporary)", fetchResult.data, fetchResult.reason⟩

/-- Handler of `src/api/result.js`. The `oracle` gives the upstream behaviour
observed for each registration number; `Promise.allSettled` over fetchers that
never reject is modelled as a direct map (the rejected branch of the source is
unreachable because `fetchSingleResult` always resolves). -/
def handler_resultjs (method : String) (q : Query)
    (oracle : String → UpstreamBehavior) : ApiResponse :=
  if method = "OPTIONS" then ⟨204, corsHeaders, .empty, []⟩
  else if !(method = "GET") then
    ⟨405, corsHeaders ++ [("Allow", "GET, OPTIONS")],
      .errMsg ("Method " ++ method ++ " Not Allowed"), []⟩
  else
    match validationError q with
    | some msg => ⟨400, corsHeaders, .errMsg msg, []⟩
    | none =>
      let s := q.reg_no.getD ""
      let pfx := strTake s (s.length - 3)
      match jsParseInt (strDrop s (s.length - 3)) with
      | none => ⟨400, corsHeaders, .errMsg "Could not parse starting number from reg_no.", []⟩
      | some startNum =>
        let keys := generateKeys pfx startNum.toNat BATCH_SIZE
        let records := keys.map (fun k => mapItem (fetchSingleResult_resultjs k (oracle k)))
        ⟨200, corsHeaders, .items records, keys⟩

/-- Response body shapes of the `src/unnamed/part_001` handler: the success
path returns the bare array of successful data objects. -/
inductive P1Body where
  | empty
  | errMsg (error : String)
  | successes (l : List DataObj)
deriving DecidableEq

/-- One HTTP response of the `src/unnamed/part_001` handler, with the fetched
registration numbers. -/
structure P1Response where
  status : Nat
  headers : List (String × String)
  body : P1Body
  fetched : List String
deriving DecidableEq

/-- Handler of `src/unnamed/part_001`: identical method handling, CORS setup,
validation and key generation to `src/api/result.js`, but the 200 response is
the array of `data` objects of the successful outcomes only. -/
def handler_part001 (method : String) (q : Query)
    (oracle : String → UpstreamBehavior) : P1Response :=
  if method = "OPTIONS" then ⟨204, corsHeaders, .empty, []⟩
  else if !(method = "GET") then
    ⟨405, corsHeaders ++ [("Allow", "GET, OPTIONS")],
      .errMsg ("Method " ++ method ++ " Not Allowed"), []⟩
  else
    match validationError q with
    | some msg => ⟨400, corsHeaders, .errMsg msg, []⟩
    | none =>
      let s := q.reg_no.getD ""
      let pfx := strTake s (s.length - 3)
      match jsParseInt (strDrop s (s.length - 3)) with
      | none => ⟨400, corsHeaders, .errMsg "Could not parse starting number from reg_no.", []⟩
      | some startNum =>
        let keys := generateKeys pfx startNum.toNat BATCH_SIZE
        let goodData := keys.filterMap (fun k =>
          let o := fetchSingleResult_part001 k (oracle k)
          if o.status = .success then o.data else none)
        ⟨200, corsHeaders, .successes goodData, keys⟩

/-- Query model of `src/unnamed/part_000`: only `req.query.prefix` is read. -/
structure P0Query where
  pfx : Option String
deriving DecidableEq

/-- Response body shapes of the `src/unnamed/part_000` handler. -/
inductive P0Body where
  | errWithExample (error exampleText : String)
  | aggregate (count total_attempted : Nat) (extractedPfx : String) (results : List DataObj)
deriving DecidableEq

/-- One HTTP response of the `src/unnamed/part_000` handler, with the fetched
registration numbers. -/
structure P0Response where
  status : Nat
  headers : List (String × String)
  body : P0Body
  fetched : List String
deriving DecidableEq

/-- Handler of `src/unnamed/part_000`. It performs no method dispatch (no
OPTIONS branch, no 405) and sets no CORS headers; the only header it sets is
`Cache-Control` on the 200 path. The `method` argument is accepted to model
that every method reaches the same code and is then ignored, as in the source. -/
def handler_part000 (_method : String) (q0 : P0Query)
    (oracle : String → UpstreamBehavior) : P0Response :=
  if elevenDigits q0.pfx = false then
    ⟨400, [],
      .errWithExample
        "Missing or invalid parameter. Please provide a full 11-digit registration number using the \"prefix\" query parameter."
        "?prefix=22104134010",
      []⟩
  else
    let s := q0.pfx.getD ""
    let actualPfx := strTake s PREFIX_LENGTH
    let keys := generateRangeKeys actualPfx
    let goodData := keys.filterMap (fun k =>
      let o := fetchSingleResult_part000 k (oracle k)
      if o.status = .success then o.data else none)
    ⟨200, [("Cache-Control", "s-maxage=3600, stale-while-revalidate=1800")],
      .aggregate goodData.length keys.length actualPfx goodData, keys⟩


/-! ## Helper lemmas about the string and number primitives -/

theorem strData_append (a b : String) : (a ++ b).data = a.data ++ b.data := rfl

theorem strLength_append (a b : String) : (a ++ b).length = a.length + b.length :=
  List.length_append a.data b.data

theorem strTake_length (s : String) (n : Nat) (h : n ≤ s.length) : (strTake s n).length = n := by
  show (s.data.take n).length = n
  rw [List.length_take]
  exact Nat.min_eq_left h

theorem strDrop_data (s : String) (n : Nat) : (strDrop s n).data = s.data.drop n := rfl

theorem strTake_append_strDrop (s : String) (n : Nat) : strTake s n ++ strDrop s n = s := by
  cases s with
  | mk data =>
    show (⟨List.take n data ++ List.drop n data⟩ : String) = ⟨data⟩
    rw [List.take_append_drop]

theorem digit_le57 (c : Char) (h : c.isDigit = true) : c.toNat ≤ 57 := by
  unfold Char.isDigit at h
  rw [Bool.and_eq_true] at h
  have h2 := of_decide_eq_true h.2
  rw [UInt32.le_def, BitVec.le_def] at h2
  exact h2

theorem digit_not_ws (c : Char) (h : c.isDigit = true) : jsWhitespace c = false := by
  unfold jsWhitespace
  simp only [Bool.or_eq_false_iff, decide_eq_false_iff_not]
  refine ⟨⟨⟨?_, ?_⟩, ?_⟩, ?_⟩ <;> · rintro rfl; revert h; decide

theorem digit_ne_dash (c : Char) (h : c.isDigit = true) : c ≠ '-' := by
  rintro rfl; revert h; decide

theorem digit_ne_plus (c : Char) (h : c.isDigit = true) : c ≠ '+' := by
  rintro rfl; revert h; decide

theorem jsParseInt_digits (ds : List Char) (hne : ds ≠ [])
    (hd : ∀ c ∈ ds, c.isDigit = true) :
    jsParseInt ⟨ds⟩ = some (Int.ofNat (digitsToNat ds)) := by
  obtain ⟨c, rest, rfl⟩ := List.exists_cons_of_ne_nil hne
  have hc : c.isDigit = true := hd c (by simp)
  have hdw : List.dropWhile jsWhitespace (c :: rest) = c :: rest := by
    rw [List.dropWhile_cons, digit_not_ws c hc]
    simp
  have htw : List.takeWhile Char.isDigit (c :: rest) = c :: rest :=
    List.takeWhile_eq_self_iff.mpr hd
  have hm : c ≠ '-' := digit_ne_dash c hc
  have hp : c ≠ '+' := digit_ne_plus c hc
  show jsParseInt ⟨c :: rest⟩ = _
  unfold jsParseInt
  simp [hdw, htw, hm, hp]

theorem digitsToNat_foldl_lt (ds : List Char) (hd : ∀ c ∈ ds, c.isDigit = true) :
    ∀ acc : Nat, List.foldl (fun a c => a * 10 + (c.toNat - 48)) acc ds < (acc + 1) * 10 ^ ds.length := by
  induction ds with
  | nil => intro acc; simp
  | cons c rest ih =>
    intro acc
    have hc : c.toNat - 48 ≤ 9 := by
      have := digit_le57 c (hd c (by simp))
      omega
    have hrec := ih (fun x hx => hd x (by simp [hx])) (acc * 10 + (c.toNat - 48))
    calc List.foldl (fun a c => a * 10 + (c.toNat - 48)) (acc * 10 + (c.toNat - 48)) rest
        < (acc * 10 + (c.toNat - 48) + 1) * 10 ^ rest.length := hrec
      _ ≤ (acc + 1) * 10 ^ (c :: rest).length := by
          rw [List.length_cons, pow_succ]
          have : acc * 10 + (c.toNat - 48) + 1 ≤ (acc + 1) * 10 := by omega
          calc (acc * 10 + (c.toNat - 48) + 1) * 10 ^ rest.length
              ≤ (acc + 1) * 10 * 10 ^ rest.length := Nat.mul_le_mul_right _ this
            _ = (acc + 1) * (10 ^ rest.length * 10) := by ring

theorem digitsToNat_lt (ds : List Char) (hd : ∀ c ∈ ds, c.isDigit = true) :
    digitsToNat ds < 10 ^ ds.length := by
  have := digitsToNat_foldl_lt ds hd 0
  simpa [digitsToNat] using this

set_option maxRecDepth 10000 in
theorem reprLen_le_three : ∀ n, n < 1000 → (Nat.repr n).length ≤ 3 := by decide

set_option maxRecDepth 10000 in
theorem reprLen_four : ∀ m, 1000 ≤ m → m ≤ 1003 → (Nat.repr m).length = 4 := by
  intro m h1 h2
  interval_cases m <;> decide

theorem padStart3_length (s : String) (h : s.length ≤ 3) : (padStart3 s).length = 3 := by
  show (List.replicate (3 - s.length) '0' ++ s.data).length = 3
  rw [List.length_append, List.length_replicate]
  have : s.length = s.data.length := rfl
  omega

theorem suffixString_low (m : Nat) (h : m < 900) :
    suffixString m = padStart3 (Nat.repr m) ∧ (suffixString m).length = 3 := by
  have hns : ¬ 900 ≤ m := by omega
  constructor
  · unfold suffixString
    rw [if_neg hns]
  · unfold suffixString
    rw [if_neg hns]
    exact padStart3_length _ (reprLen_le_three m (by omega))

theorem suffixString_high (m : Nat) (h : 900 ≤ m) : suffixString m = Nat.repr m := by
  unfold suffixString
  rw [if_pos h]

theorem generateKeys_length (pfx : String) (startNum count : Nat) :
    (generateKeys pfx startNum count).length = count := by
  simp [generateKeys]

theorem generateKeys_get (pfx : String) (startNum count i : Nat) (h : i < count) :
    (generateKeys pfx startNum count)[i]? = some (pfx ++ suffixString (startNum + i)) := by
  unfold generateKeys
  rw [List.getElem?_map, List.getElem?_range h]
  rfl

/-! ## Helper lemmas about validation and the handlers -/

theorem validationError_none_iff (q : Query) :
    validationError q = none ↔
      elevenDigits q.reg_no = true ∧ yearValid q.year = true ∧
      semesterValid q.semester = true ∧ examHeldValid q.exam_held = true := by
  unfold validationError
  cases h1 : elevenDigits q.reg_no <;> cases h2 : yearValid q.year <;>
    cases h3 : semesterValid q.semester <;> cases h4 : examHeldValid q.exam_held <;>
    simp [h1, h2, h3, h4, msgRegNo, msgYear, msgSemester, msgExamHeld]

theorem elevenDigits_some (s : String) (h : elevenDigits (some s) = true) :
    s.length = 11 ∧ ∀ c ∈ s.data, c.isDigit = true := by
  unfold elevenDigits at h
  rw [Bool.and_eq_true] at h
  refine ⟨by simpa using h.1, ?_⟩
  intro c hc
  exact List.all_eq_true.mp h.2 c hc

theorem valid_suffix_parse (s : String) (h11 : s.length = 11)
    (hdig : ∀ c ∈ s.data, c.isDigit = true) :
    jsParseInt (strDrop s (s.length - 3)) =
      some (Int.ofNat (digitsToNat (s.data.drop (s.length - 3)))) ∧
    digitsToNat (s.data.drop (s.length - 3)) ≤ 999 := by
  have hdata : s.data.length = 11 := h11
  have hlen : (s.data.drop (s.length - 3)).length = 3 := by
    rw [List.length_drop]
    omega
  have hne : s.data.drop (s.length - 3) ≠ [] := by
    intro hnil
    rw [hnil] at hlen
    simp at hlen
  have hdig3 : ∀ c ∈ s.data.drop (s.length - 3), c.isDigit = true := fun c hc =>
    hdig c (List.drop_subset _ _ hc)
  refine ⟨jsParseInt_digits _ hne hdig3, ?_⟩
  have := digitsToNat_lt _ hdig3
  rw [hlen] at this
  omega

theorem handler_resultjs_valid_run (q : Query) (oracle : String → UpstreamBehavior) (s : String)
    (hs : q.reg_no = some s) (hv : validationError q = none) :
    handler_resultjs "GET" q oracle =
      ⟨200, corsHeaders,
        .items ((generateKeys (strTake s (s.length - 3))
            (digitsToNat (s.data.drop (s.length - 3))) BATCH_SIZE).map
          (fun k => mapItem (fetchSingleResult_resultjs k (oracle k)))),
        generateKeys (strTake s (s.length - 3))
          (digitsToNat (s.data.drop (s.length - 3))) BATCH_SIZE⟩ := by
  have hval := (validationError_none_iff q).mp hv
  have h11 := elevenDigits_some s (hs ▸ hval.1)
  have hparse := valid_suffix_parse s h11.1 h11.2
  unfold handler_resultjs
  rw [if_neg (by decide)]
  rw [if_neg (by simp)]
  rw [hv]
  simp only [hs, Option.getD_some]
  rw [hparse.1]
  simp

theorem handler_part001_valid_run (q : Query) (oracle : String → UpstreamBehavior) (s : String)
    (hs : q.reg_no = some s) (hv : validationError q = none) :
    handler_part001 "GET" q oracle =
      ⟨200, corsHeaders,
        .successes ((generateKeys (strTake s (s.length - 3))
            (digitsToNat (s.data.drop (s.length - 3))) BATCH_SIZE).filterMap
          (fun k =>
            let o := fetchSingleResult_part001 k (oracle k)
            if o.status = .success then o.data else none)),
        generateKeys (strTake s (s.length - 3))
          (digitsToNat (s.data.drop (s.length - 3))) BATCH_SIZE⟩ := by
  have hval := (validationError_none_iff q).mp hv
  have h11 := elevenDigits_some s (hs ▸ hval.1)
  have hparse := valid_suffix_parse s h11.1 h11.2
  unfold handler_part001
  rw [if_neg (by decide)]
  rw [if_neg (by simp)]
  rw [hv]
  simp only [hs, Option.getD_some]
  rw [hparse.1]
  simp

theorem fetchSingleResult_resultjs_regNo (regNo : String) (b : UpstreamBehavior) :
    (fetchSingleResult_resultjs regNo b).regNo = regNo := by
  cases b with
  | abortError => rfl
  | fetchFailure msg => rfl
  | httpResponse code body =>
    simp only [fetchSingleResult_resultjs]
    split
    · rfl
    · cases body with
      | error msg => rfl
      | ok j =>
        dsimp only
        split
        · rfl
        · split <;> rfl

theorem fetchSingleResult_part001_regNo (regNo : String) (b : UpstreamBehavior) :
    (fetchSingleResult_part001 regNo b).regNo = regNo := by
  cases b with
  | abortError => rfl
  | fetchFailure msg => rfl
  | httpResponse code body =>
    simp only [fetchSingleResult_part001]
    split
    · rfl
    · cases body with
      | error msg => rfl
      | ok j =>
        dsimp only
        split
        · rfl
        · split <;> rfl

theorem fetchSingleResult_part000_regNo (regNo : String) (b : UpstreamBehavior) :
    (fetchSingleResult_part000 regNo b).regNo = regNo := by
  cases b with
  | abortError => rfl
  | fetchFailure msg => rfl
  | httpResponse code body =>
    simp only [fetchSingleResult_part000]
    split
    · rfl
    · cases body with
      | error msg => rfl
      | ok j =>
        dsimp only
        split <;> rfl

theorem mapItem_regNo (o : FetchOutcome) : (mapItem o).regNo = o.regNo := by
  unfold mapItem
  split <;> rfl

theorem mapItem_status_cases (o : FetchOutcome) :
    (mapItem o).status = "success" ∨ (mapItem o).status = "Record not found" ∨
    (mapItem o).status = "Error fetching result (temporary)" := by
  unfold mapItem
  split
  · exact Or.inl rfl
  · exact Or.inr (Or.inl rfl)
  · exact Or.inr (Or.inr rfl)

/-! ## Claim theorems -/

/-- Claim C1: for every valid 11-digit registration number input, the handler of
`src/api/result.js` splits it into an 8-character numeric prefix and a 3-digit
start suffix and generates exactly 5 lookup keys for the consecutive suffixes
`start`, `start+1`, ..., `start+4` under that prefix, in ascending suffix order,
with each suffix below 900 zero-padded to 3 digits and each suffix at or above
900 rendered unpadded. -/
theorem C1_candidate_generation (q : Query) (oracle : String → UpstreamBehavior) (s : String)
    (hs : q.reg_no = some s) (hv : validationError q = none) :
    ∃ start : Nat,
      jsParseInt (strDrop s (s.length - 3)) = some (Int.ofNat start) ∧ start ≤ 999 ∧
      (strTake s (s.length - 3)).length = 8 ∧
      strTake s (s.length - 3) ++ strDrop s (s.length - 3) = s ∧
      (handler_resultjs "GET" q oracle).fetched.length = 5 ∧
      ∀ i, i < 5 →
        (handler_resultjs "GET" q oracle).fetched[i]? =
          some (strTake s (s.length - 3) ++ suffixString (start + i)) ∧
        (start + i < 900 →
          suffixString (start + i) = padStart3 (Nat.repr (start + i)) ∧
          (suffixString (start + i)).length = 3) ∧
        (900 ≤ start + i → suffixString (start + i) = Nat.repr (start + i)) := by
  have hval := (validationError_none_iff q).mp hv
  have h11 := elevenDigits_some s (hs ▸ hval.1)
  have hparse := valid_suffix_parse s h11.1 h11.2
  refine ⟨digitsToNat (s.data.drop (s.length - 3)), hparse.1, hparse.2, ?_, ?_, ?_, ?_⟩
  · rw [strTake_length s (s.length - 3) (by omega)]
    omega
  · exact strTake_append_strDrop s _
  · rw [handler_resultjs_valid_run q oracle s hs hv]
    exact generateKeys_length _ _ _
  · intro i hi
    refine ⟨?_, fun hlow => suffixString_low _ hlow, fun hhigh => suffixString_high _ hhigh⟩
    rw [handler_resultjs_valid_run q oracle s hs hv]
    exact generateKeys_get _ _ _ i hi

/-- Witness for C1 at the concrete request `reg_no=22104134010`, `year=2024`,
`semester=V`, `exam_held=July/2025`. -/
theorem C1_candidate_generation_witness :
    validationError ⟨some "22104134010", some "2024", some "V", some "July/2025", none⟩ = none ∧
    ∃ start : Nat,
      jsParseInt (strDrop "22104134010" ("22104134010".length - 3)) = some (Int.ofNat start) ∧
      start ≤ 999 ∧
      (strTake "22104134010" ("22104134010".length - 3)).length = 8 ∧
      strTake "22104134010" ("22104134010".length - 3) ++
        strDrop "22104134010" ("22104134010".length - 3) = "22104134010" ∧
      (handler_resultjs "GET" ⟨some "22104134010", some "2024", some "V", some "July/2025", none⟩
        (fun _ => .abortError)).fetched.length = 5 ∧
      ∀ i, i < 5 →
        (handler_resultjs "GET" ⟨some "22104134010", some "2024", some "V", some "July/2025", none⟩
          (fun _ => .abortError)).fetched[i]? =
          some (strTake "22104134010" ("22104134010".length - 3) ++ suffixString (start + i)) ∧
        (start + i < 900 →
          suffixString (start + i) = padStart3 (Nat.repr (start + i)) ∧
          (suffixString (start + i)).length = 3) ∧
        (900 ≤ start + i → suffixString (start + i) = Nat.repr (start + i)) :=
  ⟨by decide,
   C1_candidate_generation ⟨some "22104134010", some "2024", some "V", some "July/2025", none⟩
     (fun _ => .abortError) "22104134010" rfl (by decide)⟩

/-- Claim C2 counterexample: in `src/api/result.js`, an upstream HTTP response
with status 503 (outside the success range) is classified `error`, not `failed`,
refuting the claim that the Single-Item Fetcher classifies such outcomes as
Failed in every variant. The reason does carry the HTTP status code. -/
theorem C2_counterexample_nonok_http :
    (fetchSingleResult_resultjs "22104134010"
      (.httpResponse 503 (.error "upstream html"))).status = .error ∧
    ¬ (fetchSingleResult_resultjs "22104134010"
      (.httpResponse 503 (.error "upstream html"))).status = .failed ∧
    (fetchSingleResult_resultjs "22104134010"
      (.httpResponse 503 (.error "upstream html"))).reason = some "BEU API Error: HTTP 503" := by
  decide

/-- Claim C2 (amended): when an HTTP response is received with a status code
outside the success range, the fetchers of `src/unnamed/part_000` and
`src/unnamed/part_001` classify the outcome as Failed with reason `HTTP <code>`,
while the fetcher of `src/api/result.js` classifies it as Error with reason
`BEU API Error: HTTP <code>`; in every variant the reason carries the HTTP
status code. -/
theorem C2_amended_http_failure (regNo : String) (code : Nat) (body : Except String JsonData)
    (h : httpOk code = false) :
    fetchSingleResult_part000 regNo (.httpResponse code body) =
      ⟨.failed, regNo, some ("HTTP " ++ Nat.repr code), none⟩ ∧
    fetchSingleResult_part001 regNo (.httpResponse code body) =
      ⟨.failed, regNo, some ("HTTP " ++ Nat.repr code), none⟩ ∧
    fetchSingleResult_resultjs regNo (.httpResponse code body) =
      ⟨.error, regNo, some ("BEU API Error: HTTP " ++ Nat.repr code), none⟩ := by
  refine ⟨?_, ?_, ?_⟩
  · simp only [fetchSingleResult_part000]
    rw [if_pos h]
  · simp only [fetchSingleResult_part001]
    rw [if_pos h]
  · simp only [fetchSingleResult_resultjs]
    rw [if_pos h]

/-- Witness for the amended C2 at HTTP status 503. -/
theorem C2_amended_http_failure_witness :
    httpOk 503 = false ∧
    fetchSingleResult_part001 "22104134010" (.httpResponse 503 (.error "x")) =
      ⟨.failed, "22104134010", some "HTTP 503", none⟩ :=
  ⟨by decide, (C2_amended_http_failure "22104134010" 503 (.error "x") (by decide)).2.1⟩

/-- Claim C3 counterexample: a request with `semester` missing and a request
with the unrecognized `semester=IX` both get status 400 with the same error
body, so the four validation cases do not each carry a distinct message. -/
theorem C3_counterexample_shared_message :
    (handler_resultjs "GET" ⟨some "22104134010", some "2024", none, some "July/2025", none⟩
      (fun _ => .abortError)).status = 400 ∧
    (handler_resultjs "GET" ⟨some "22104134010", some "2024", some "IX", some "July/2025", none⟩
      (fun _ => .abortError)).status = 400 ∧
    (handler_resultjs "GET" ⟨some "22104134010", some "2024", none, some "July/2025", none⟩
      (fun _ => .abortError)).body =
      (handler_resultjs "GET" ⟨some "22104134010", some "2024", some "IX", some "July/2025", none⟩
        (fun _ => .abortError)).body := by
  decide

/-- Claim C3 (amended): a non-numeric `year` (with valid `reg_no`), a missing
`semester`, an unrecognized `semester` code, and a missing `exam_held` each
trigger a 400 response with a descriptive message and no network call (the
fetched list is empty); the `year` and `exam_held` failures each have their own
message, while the missing-`semester` and unrecognized-`semester` cases share
one message; the three messages are pairwise distinct. -/
theorem C3_amended_validation (q : Query) (oracle : String → UpstreamBehavior) :
    (elevenDigits q.reg_no = true → yearValid q.year = false →
      semesterValid q.semester = true → examHeldValid q.exam_held = true →
      handler_resultjs "GET" q oracle = ⟨400, corsHeaders, .errMsg msgYear, []⟩) ∧
    (q.semester = none →
      handler_resultjs "GET" q oracle = ⟨400, corsHeaders, .errMsg msgSemester, []⟩) ∧
    (∀ sem, q.semester = some sem → romanNumerals.contains (jsToUpper sem) = false →
      handler_resultjs "GET" q oracle = ⟨400, corsHeaders, .errMsg msgSemester, []⟩) ∧
    (semesterValid q.semester = true → examHeldValid q.exam_held = false →
      handler_resultjs "GET" q oracle = ⟨400, corsHeaders, .errMsg msgExamHeld, []⟩) ∧
    msgYear ≠ msgSemester ∧ msgYear ≠ msgExamHeld ∧ msgSemester ≠ msgExamHeld := by
  refine ⟨?_, ?_, ?_, ?_, by decide, by decide, by decide⟩
  · intro h1 h2 h3 h4
    have hval : validationError q = some msgYear := by
      unfold validationError
      simp [h1, h2, h3, h4]
    unfold handler_resultjs
    rw [if_neg (by decide), if_neg (by simp), hval]
  · intro hsem
    have hval : validationError q = some msgSemester := by
      have hsv : semesterValid q.semester = false := by
        rw [hsem]; rfl
      unfold validationError
      simp [hsv]
    unfold handler_resultjs
    rw [if_neg (by decide), if_neg (by simp), hval]
  · intro sem hsem hcontains
    have hval : validationError q = some msgSemester := by
      have hsv : semesterValid q.semester = false := by
        have hnm : jsToUpper sem ∉ romanNumerals := by
          simpa using hcontains
        unfold semesterValid
        rw [hsem]
        simp [hnm]
      unfold validationError
      simp [hsv]
    unfold handler_resultjs
    rw [if_neg (by decide), if_neg (by simp), hval]
  · intro h3 h4
    have hval : validationError q = some msgExamHeld := by
      unfold validationError
      simp [h3, h4]
    unfold handler_resultjs
    rw [if_neg (by decide), if_neg (by simp), hval]

/-- Witness for the amended C3 at a request with non-numeric `year=abc`. -/
theorem C3_amended_validation_witness :
    handler_resultjs "GET" ⟨some "22104134010", some "abc", some "III", some "July/2025", none⟩
      (fun _ => .abortError) = ⟨400, corsHeaders, .errMsg msgYear, []⟩ :=
  (C3_amended_validation ⟨some "22104134010", some "abc", some "III", some "July/2025", none⟩
    (fun _ => .abortError)).1 (by decide) (by decide) (by decide) (by decide)

theorem handler_part000_valid_run (method : String) (q0 : P0Query)
    (oracle : String → UpstreamBehavior) (hp : elevenDigits q0.pfx = true) :
    handler_part000 method q0 oracle =
      ⟨200, [("Cache-Control", "s-maxage=3600, stale-while-revalidate=1800")],
        .aggregate
          ((generateRangeKeys (strTake (q0.pfx.getD "") PREFIX_LENGTH)).filterMap
            (fun k =>
              let o := fetchSingleResult_part000 k (oracle k)
              if o.status = .success then o.data else none)).length
          (generateRangeKeys (strTake (q0.pfx.getD "") PREFIX_LENGTH)).length
          (strTake (q0.pfx.getD "") PREFIX_LENGTH)
          ((generateRangeKeys (strTake (q0.pfx.getD "") PREFIX_LENGTH)).filterMap
            (fun k =>
              let o := fetchSingleResult_part000 k (oracle k)
              if o.status = .success then o.data else none)),
        generateRangeKeys (strTake (q0.pfx.getD "") PREFIX_LENGTH)⟩ := by
  unfold handler_part000
  rw [if_neg (by simp [hp])]

/-- Claim C4: when every concurrent fetch outcome of a batch is a non-success,
the aggregate-mode responders (`src/unnamed/part_000` and `src/unnamed/part_001`)
still return HTTP status 200 with an empty successful-results collection, never
an error status. -/
theorem C4_aggregate_all_fail (q : Query) (q0 : P0Query) (oracle : String → UpstreamBehavior)
    (hq : validationError q = none)
    (hp : elevenDigits q0.pfx = true)
    (h1 : ∀ k ∈ (handler_part001 "GET" q oracle).fetched,
      (fetchSingleResult_part001 k (oracle k)).status ≠ .success)
    (h0 : ∀ k ∈ (handler_part000 "GET" q0 oracle).fetched,
      (fetchSingleResult_part000 k (oracle k)).status ≠ .success) :
    (handler_part001 "GET" q oracle).status = 200 ∧
    (handler_part001 "GET" q oracle).body = .successes [] ∧
    (handler_part000 "GET" q0 oracle).status = 200 ∧
    ∃ total pfx, (handler_part000 "GET" q0 oracle).body = .aggregate 0 total pfx [] := by
  obtain ⟨s, hs⟩ : ∃ s, q.reg_no = some s := by
    have h := ((validationError_none_iff q).mp hq).1
    cases hq2 : q.reg_no with
    | none => rw [hq2] at h; exact absurd h (by decide)
    | some s => exact ⟨s, rfl⟩
  have hrun1 := handler_part001_valid_run q oracle s hs hq
  have hrun0 := handler_part000_valid_run "GET" q0 oracle hp
  rw [hrun1] at h1
  rw [hrun0] at h0
  have hnil1 : (generateKeys (strTake s (s.length - 3))
      (digitsToNat (s.data.drop (s.length - 3))) BATCH_SIZE).filterMap
      (fun k =>
        let o := fetchSingleResult_part001 k (oracle k)
        if o.status = .success then o.data else none) = [] := by
    rw [List.filterMap_eq_nil_iff]
    intro k hk
    dsimp only
    rw [if_neg (h1 k hk)]
  have hnil0 : (generateRangeKeys (strTake (q0.pfx.getD "") PREFIX_LENGTH)).filterMap
      (fun k =>
        let o := fetchSingleResult_part000 k (oracle k)
        if o.status = .success then o.data else none) = [] := by
    rw [List.filterMap_eq_nil_iff]
    intro k hk
    dsimp only
    rw [if_neg (h0 k hk)]
  rw [hrun1, hrun0]
  refine ⟨rfl, ?_, rfl, ?_⟩
  · dsimp only
    rw [hnil1]
  · refine ⟨(generateRangeKeys (strTake (q0.pfx.getD "") PREFIX_LENGTH)).length,
      strTake (q0.pfx.getD "") PREFIX_LENGTH, ?_⟩
    dsimp only
    rw [hnil0]
    rfl

/-- Witness for C4: a valid request whose every upstream call times out. -/
theorem C4_aggregate_all_fail_witness :
    (handler_part001 "GET" ⟨some "22104134010", some "2024", some "V", some "July/2025", none⟩
      (fun _ => .abortError)).body = .successes [] ∧
    (handler_part000 "GET" ⟨some "22104134010"⟩ (fun _ => .abortError)).status = 200 :=
  ⟨(C4_aggregate_all_fail ⟨some "22104134010", some "2024", some "V", some "July/2025", none⟩
      ⟨some "22104134010"⟩ (fun _ => .abortError) (by decide) (by decide)
      (fun k _ h => FetchStatus.noConfusion h)
      (fun k _ h => FetchStatus.noConfusion h)).2.1,
   (C4_aggregate_all_fail ⟨some "22104134010", some "2024", some "V", some "July/2025", none⟩
      ⟨some "22104134010"⟩ (fun _ => .abortError) (by decide) (by decide)
      (fun k _ h => FetchStatus.noConfusion h)
      (fun k _ h => FetchStatus.noConfusion h)).2.2.1⟩

/-- Claim C5: in per-item mode (`src/api/result.js`), the response to a valid
request is an ordered array with exactly one record per generated lookup key, in
the order of the candidate list; the record at each index carries the
registration number at the same index of the candidate list, and every record's
status string is one of exactly three values: `success`, `Record not found`, or
`Error fetching result (temporary)`. -/
theorem C5_per_item_shape (q : Query) (oracle : String → UpstreamBehavior)
    (hv : validationError q = none) :
    ∃ records : List ItemRecord,
      (handler_resultjs "GET" q oracle).status = 200 ∧
      (handler_resultjs "GET" q oracle).body = .items records ∧
      records.length = (handler_resultjs "GET" q oracle).fetched.length ∧
      (∀ i : Nat, records[i]?.map ItemRecord.regNo = (handler_resultjs "GET" q oracle).fetched[i]?) ∧
      ∀ rec ∈ records, rec.status = "success" ∨ rec.status = "Record not found" ∨
        rec.status = "Error fetching result (temporary)" := by
  obtain ⟨s, hs⟩ : ∃ s, q.reg_no = some s := by
    have h := ((validationError_none_iff q).mp hv).1
    cases hq2 : q.reg_no with
    | none => rw [hq2] at h; exact absurd h (by decide)
    | some s => exact ⟨s, rfl⟩
  rw [handler_resultjs_valid_run q oracle s hs hv]
  refine ⟨_, rfl, rfl, ?_, ?_, ?_⟩
  · dsimp only
    rw [List.length_map]
  · intro i
    dsimp only
    rw [List.getElem?_map, Option.map_map]
    cases hk : (generateKeys (strTake s (s.length - 3))
        (digitsToNat (s.data.drop (s.length - 3))) BATCH_SIZE)[i]? with
    | none => rfl
    | some k =>
      simp [Function.comp, mapItem_regNo, fetchSingleResult_resultjs_regNo]
  · intro rec hrec
    rw [List.mem_map] at hrec
    obtain ⟨k, _, rfl⟩ := hrec
    exact mapItem_status_cases _

/-- Witness for C5 at a valid request whose upstream calls all time out. -/
theorem C5_per_item_shape_witness :
    validationError ⟨some "22104134010", some "2024", some "V", some "July/2025", none⟩ = none ∧
    ∃ records : List ItemRecord,
      (handler_resultjs "GET" ⟨some "22104134010", some "2024", some "V", some "July/2025", none⟩
        (fun _ => .abortError)).status = 200 ∧
      (handler_resultjs "GET" ⟨some "22104134010", some "2024", some "V", some "July/2025", none⟩
        (fun _ => .abortError)).body = .items records ∧
      records.length = (handler_resultjs "GET"
        ⟨some "22104134010", some "2024", some "V", some "July/2025", none⟩
        (fun _ => .abortError)).fetched.length ∧
      (∀ i : Nat, records[i]?.map ItemRecord.regNo = (handler_resultjs "GET"
        ⟨some "22104134010", some "2024", some "V", some "July/2025", none⟩
        (fun _ => .abortError)).fetched[i]?) ∧
      ∀ rec ∈ records, rec.status = "success" ∨ rec.status = "Record not found" ∨
        rec.status = "Error fetching result (temporary)" :=
  ⟨by decide,
   C5_per_item_shape ⟨some "22104134010", some "2024", some "V", some "July/2025", none⟩
     (fun _ => .abortError) (by decide)⟩

theorem fetch_resultjs_success_iff (regNo : String) (b : UpstreamBehavior) :
    (fetchSingleResult_resultjs regNo b).status = .success ↔
      ∃ code j d, b = .httpResponse code (.ok j) ∧ httpOk code = true ∧
        j.status = some 200 ∧ j.data = some d := by
  constructor
  · intro h
    cases b with
    | abortError => exact FetchStatus.noConfusion h
    | fetchFailure msg => exact FetchStatus.noConfusion h
    | httpResponse code body =>
      simp only [fetchSingleResult_resultjs] at h
      split at h
      · exact FetchStatus.noConfusion h
      · rename_i hok
        cases body with
        | error msg => exact FetchStatus.noConfusion h
        | ok j =>
          dsimp only at h
          split at h
          · exact FetchStatus.noConfusion h
          · split at h
            · exact FetchStatus.noConfusion h
            · rename_i h404 hdata
              push_neg at hdata
              obtain ⟨d, hd⟩ := Option.ne_none_iff_exists'.mp hdata.2
              exact ⟨code, j, d, rfl, by simpa using hok, hdata.1, hd⟩
  · rintro ⟨code, j, d, rfl, hok, hst, hd⟩
    simp only [fetchSingleResult_resultjs]
    rw [if_neg (by simp [hok]), if_neg (by simp [hst]), if_neg (by simp [hst, hd])]

theorem fetch_part001_success_iff (regNo : String) (b : UpstreamBehavior) :
    (fetchSingleResult_part001 regNo b).status = .success ↔
      ∃ code j d, b = .httpResponse code (.ok j) ∧ httpOk code = true ∧
        j.status = some 200 ∧ j.data = some d := by
  constructor
  · intro h
    cases b with
    | abortError => exact FetchStatus.noConfusion h
    | fetchFailure msg => exact FetchStatus.noConfusion h
    | httpResponse code body =>
      simp only [fetchSingleResult_part001] at h
      split at h
      · exact FetchStatus.noConfusion h
      · rename_i hok
        cases body with
        | error msg => exact FetchStatus.noConfusion h
        | ok j =>
          dsimp only at h
          split at h
          · exact FetchStatus.noConfusion h
          · split at h
            · exact FetchStatus.noConfusion h
            · rename_i h404 hdata
              push_neg at hdata
              obtain ⟨d, hd⟩ := Option.ne_none_iff_exists'.mp hdata.2
              exact ⟨code, j, d, rfl, by simpa using hok, hdata.1, hd⟩
  · rintro ⟨code, j, d, rfl, hok, hst, hd⟩
    simp only [fetchSingleResult_part001]
    rw [if_neg (by simp [hok]), if_neg (by simp [hst]), if_neg (by simp [hst, hd])]

theorem fetch_part000_success_iff (regNo : String) (b : UpstreamBehavior) :
    (fetchSingleResult_part000 regNo b).status = .success ↔
      ∃ code j d, b = .httpResponse code (.ok j) ∧ httpOk code = true ∧
        j.status = some 200 ∧ j.data = some d := by
  constructor
  · intro h
    cases b with
    | abortError => exact FetchStatus.noConfusion h
    | fetchFailure msg => exact FetchStatus.noConfusion h
    | httpResponse code body =>
      simp only [fetchSingleResult_part000] at h
      split at h
      · exact FetchStatus.noConfusion h
      · rename_i hok
        cases body with
        | error msg => exact FetchStatus.noConfusion h
        | ok j =>
          dsimp only at h
          split at h
          · exact FetchStatus.noConfusion h
          · rename_i hdata
            push_neg at hdata
            obtain ⟨d, hd⟩ := Option.ne_none_iff_exists'.mp hdata.2
            exact ⟨code, j, d, rfl, by simpa using hok, hdata.1, hd⟩
  · rintro ⟨code, j, d, rfl, hok, hst, hd⟩
    simp only [fetchSingleResult_part000]
    rw [if_neg (by simp [hok]), if_neg (by simp [hst, hd])]

/-- Claim C6: for every lookup key and every possible upstream behaviour
(timeout, transport failure, non-2xx status, unparsable or unexpected payload,
or success), each of the three fetchers resolves to exactly one classified
outcome — a total function of the behaviour — which always echoes the input
registration number, and it classifies the outcome as `success` precisely when
the upstream returned a 2xx HTTP status with a parsed payload carrying status
200 and a data object. By construction of the embedding (a total function into
`FetchOutcome`), no upstream behaviour propagates an unhandled failure to the
caller. -/
theorem C6_fetcher_totality (regNo : String) (b : UpstreamBehavior) :
    ((fetchSingleResult_resultjs regNo b).regNo = regNo ∧
      ((fetchSingleResult_resultjs regNo b).status = .success ↔
        ∃ code j d, b = .httpResponse code (.ok j) ∧ httpOk code = true ∧
          j.status = some 200 ∧ j.data = some d)) ∧
    ((fetchSingleResult_part001 regNo b).regNo = regNo ∧
      ((fetchSingleResult_part001 regNo b).status = .success ↔
        ∃ code j d, b = .httpResponse code (.ok j) ∧ httpOk code = true ∧
          j.status = some 200 ∧ j.data = some d)) ∧
    ((fetchSingleResult_part000 regNo b).regNo = regNo ∧
      ((fetchSingleResult_part000 regNo b).status = .success ↔
        ∃ code j d, b = .httpResponse code (.ok j) ∧ httpOk code = true ∧
          j.status = some 200 ∧ j.data = some d)) :=
  ⟨⟨fetchSingleResult_resultjs_regNo regNo b, fetch_resultjs_success_iff regNo b⟩,
   ⟨fetchSingleResult_part001_regNo regNo b, fetch_part001_success_iff regNo b⟩,
   ⟨fetchSingleResult_part000_regNo regNo b, fetch_part000_success_iff regNo b⟩⟩

/-- Claim C7: for every Success outcome, the data object placed in the response
equals the `data` field of the upstream JSON payload, except that the per-item
variant (`src/api/result.js`) removes the `father_name` and `mother_name`
subfields; the aggregate variants return it verbatim. -/
theorem C7_success_data_roundtrip (regNo : String) (code : Nat) (j : JsonData) (d : DataObj)
    (hok : httpOk code = true) (hst : j.status = some 200) (hd : j.data = some d) :
    mapItem (fetchSingleResult_resultjs regNo (.httpResponse code (.ok j))) =
      ⟨regNo, "success", some (stripParents d), none⟩ ∧
    (fetchSingleResult_part001 regNo (.httpResponse code (.ok j))).data = some d ∧
    (fetchSingleResult_part000 regNo (.httpResponse code (.ok j))).data = some d := by
  have hfetch : fetchSingleResult_resultjs regNo (.httpResponse code (.ok j)) =
      ⟨.success, regNo, none, some d⟩ := by
    simp only [fetchSingleResult_resultjs]
    rw [if_neg (by simp [hok]), if_neg (by simp [hst]), if_neg (by simp [hst, hd]), hd]
  refine ⟨?_, ?_, ?_⟩
  · rw [hfetch]
    rfl
  · simp only [fetchSingleResult_part001]
    rw [if_neg (by simp [hok]), if_neg (by simp [hst]), if_neg (by simp [hst, hd])]
    exact hd
  · simp only [fetchSingleResult_part000]
    rw [if_neg (by simp [hok]), if_neg (by simp [hst, hd])]
    exact hd

/-- Witness for C7 at a concrete upstream payload containing parent names. -/
theorem C7_success_data_roundtrip_witness :
    httpOk 200 = true ∧
    mapItem (fetchSingleResult_resultjs "22104134010" (.httpResponse 200
      (.ok ⟨some 200, none,
        some [("name", "A"), ("father_name", "B"), ("mother_name", "C"), ("sgpa", "8.2")]⟩))) =
      ⟨"22104134010", "success",
        some (stripParents
          [("name", "A"), ("father_name", "B"), ("mother_name", "C"), ("sgpa", "8.2")]), none⟩ ∧
    stripParents [("name", "A"), ("father_name", "B"), ("mother_name", "C"), ("sgpa", "8.2")] =
      [("name", "A"), ("sgpa", "8.2")] :=
  ⟨by decide,
   (C7_success_data_roundtrip "22104134010" 200
     ⟨some 200, none,
       some [("name", "A"), ("father_name", "B"), ("mother_name", "C"), ("sgpa", "8.2")]⟩
     [("name", "A"), ("father_name", "B"), ("mother_name", "C"), ("sgpa", "8.2")]
     (by decide) rfl rfl).1,
   by decide⟩

/-- Claim C8 counterexample: the `src/unnamed/part_000` endpoint sets no CORS
headers and gives OPTIONS no special handling — an OPTIONS request with no
`prefix` parameter gets a 400 response with an empty header list, not a 204
with CORS headers. -/
theorem C8_counterexample_part000_no_cors :
    (handler_part000 "OPTIONS" ⟨none⟩ (fun _ => .abortError)).status = 400 ∧
    (handler_part000 "OPTIONS" ⟨none⟩ (fun _ => .abortError)).headers = [] := by
  decide

/-- Claim C8 (amended): the handlers of `src/api/result.js` and
`src/unnamed/part_001` place the three permissive CORS headers on every
response, on every path, and answer OPTIONS with a 204 and an empty body; the
`src/unnamed/part_000` handler never sets any CORS header on any path. -/
theorem C8_amended_cors (method : String) (q : Query) (q0 : P0Query)
    (oracle : String → UpstreamBehavior) :
    (∃ extra, (handler_resultjs method q oracle).headers = corsHeaders ++ extra) ∧
    (∃ extra, (handler_part001 method q oracle).headers = corsHeaders ++ extra) ∧
    handler_resultjs "OPTIONS" q oracle = ⟨204, corsHeaders, .empty, []⟩ ∧
    handler_part001 "OPTIONS" q oracle = ⟨204, corsHeaders, .empty, []⟩ ∧
    (handler_part000 method q0 oracle).headers.all
      (fun h => !(h.1 = "Access-Control-Allow-Origin")) = true := by
  refine ⟨?_, ?_, ?_, ?_, ?_⟩
  · unfold handler_resultjs
    split
    · exact ⟨[], by simp⟩
    · split
      · exact ⟨[("Allow", "GET, OPTIONS")], rfl⟩
      · split
        · exact ⟨[], by simp⟩
        · dsimp only
          split
          · exact ⟨[], by simp⟩
          · exact ⟨[], by simp⟩
  · unfold handler_part001
    split
    · exact ⟨[], by simp⟩
    · split
      · exact ⟨[("Allow", "GET, OPTIONS")], rfl⟩
      · split
        · exact ⟨[], by simp⟩
        · dsimp only
          split
          · exact ⟨[], by simp⟩
          · exact ⟨[], by simp⟩
  · unfold handler_resultjs
    rw [if_pos rfl]
  · unfold handler_part001
    rw [if_pos rfl]
  · unfold handler_part000
    split
    · rfl
    · rfl

/-- Claim C9: whenever an inbound request supplies a `batch_size` greater than
the configured maximum (`BATCH_SIZE = 5`), the number of lookup keys generated
never exceeds that maximum. In the code no handler reads the `batch_size`
parameter at all: the effective batch size is the fixed constant `BATCH_SIZE`,
so the number of generated keys is at most `BATCH_SIZE` for every request. -/
theorem C9_batch_size_cap (method : String) (q : Query) (oracle : String → UpstreamBehavior)
    (b : String) (n : Int) (_hb : q.batch_size = some b) (_hn : jsParseInt b = some n)
    (_hgt : (BATCH_SIZE : Int) < n) :
    (handler_resultjs method q oracle).fetched.length ≤ BATCH_SIZE ∧
    (handler_part001 method q oracle).fetched.length ≤ BATCH_SIZE := by
  constructor
  · unfold handler_resultjs
    split
    · simp
    · split
      · simp
      · split
        · simp
        · dsimp only
          split
          · simp
          · dsimp only
            rw [generateKeys_length]
  · unfold handler_part001
    split
    · simp
    · split
      · simp
      · split
        · simp
        · dsimp only
          split
          · simp
          · dsimp only
            rw [generateKeys_length]

/-- Witness for C9 at a request supplying `batch_size=10`. -/
theorem C9_batch_size_cap_witness :
    jsParseInt "10" = some 10 ∧ (BATCH_SIZE : Int) < 10 ∧
    (handler_resultjs "GET"
      ⟨some "22104134010", some "2024", some "V", some "July/2025", some "10"⟩
      (fun _ => .abortError)).fetched.length ≤ BATCH_SIZE :=
  ⟨by decide, by decide,
   (C9_batch_size_cap "GET"
     ⟨some "22104134010", some "2024", some "V", some "July/2025", some "10"⟩
     (fun _ => .abortError) "10" 10 rfl (by decide) (by decide)).1⟩

/-- Claim C10: for every valid 11-digit registration number whose 3-digit
suffix parses to 996 or more, the batch-of-5 generator still produces 5 keys
and renders suffixes of 1000 and above as unpadded 4-digit strings, so the
corresponding lookup keys are 12 characters long instead of 11; no clamping to
the 3-digit suffix space occurs, and in particular the last key of the batch is
always 12 characters long. -/
theorem C10_suffix_overflow (q : Query) (oracle : String → UpstreamBehavior) (s : String)
    (start : Nat) (hs : q.reg_no = some s) (hv : validationError q = none)
    (hstart : jsParseInt (strDrop s (s.length - 3)) = some (Int.ofNat start))
    (h996 : 996 ≤ start) :
    (handler_resultjs "GET" q oracle).fetched.length = 5 ∧
    (∀ i, i < 5 → 1000 ≤ start + i →
      (handler_resultjs "GET" q oracle).fetched[i]? =
        some (strTake s (s.length - 3) ++ Nat.repr (start + i)) ∧
      (strTake s (s.length - 3) ++ Nat.repr (start + i)).length = 12) ∧
    ∃ key, (handler_resultjs "GET" q oracle).fetched[4]? = some key ∧ key.length = 12 := by
  have hval := (validationError_none_iff q).mp hv
  have h11 := elevenDigits_some s (hs ▸ hval.1)
  have hparse := valid_suffix_parse s h11.1 h11.2
  have hstart_eq : digitsToNat (s.data.drop (s.length - 3)) = start := by
    rw [hparse.1] at hstart
    injection hstart with h
    exact Int.ofNat.inj h
  have hle : start ≤ 999 := hstart_eq ▸ hparse.2
  have hpfxlen : (strTake s (s.length - 3)).length = 8 := by
    rw [strTake_length s (s.length - 3) (by omega)]
    omega
  have hkeylen : ∀ i, i < 5 → 1000 ≤ start + i →
      (strTake s (s.length - 3) ++ Nat.repr (start + i)).length = 12 := by
    intro i hi hge
    rw [strLength_append, hpfxlen, reprLen_four (start + i) hge (by omega)]
  have hrun := handler_resultjs_valid_run q oracle s hs hv
  rw [hstart_eq] at hrun
  refine ⟨?_, ?_, ?_⟩
  · rw [hrun]
    exact generateKeys_length _ _ _
  · intro i hi hge
    refine ⟨?_, hkeylen i hi hge⟩
    rw [hrun]
    have := generateKeys_get (strTake s (s.length - 3)) start BATCH_SIZE i hi
    rw [suffixString_high (start + i) (by omega)] at this
    exact this
  · refine ⟨strTake s (s.length - 3) ++ Nat.repr (start + 4), ?_,
      hkeylen 4 (by omega) (by omega)⟩
    rw [hrun]
    have := generateKeys_get (strTake s (s.length - 3)) start BATCH_SIZE 4 (by decide)
    rw [suffixString_high (start + 4) (by omega)] at this
    exact this

/-- Witness for C10 at `reg_no=22104134998` (start suffix 998). -/
theorem C10_suffix_overflow_witness :
    jsParseInt (strDrop "22104134998" ("22104134998".length - 3)) = some (Int.ofNat 998) ∧
    (handler_resultjs "GET" ⟨some "22104134998", some "2024", some "V", some "July/2025", none⟩
      (fun _ => .abortError)).fetched.length = 5 ∧
    ∃ key, (handler_resultjs "GET"
      ⟨some "22104134998", some "2024", some "V", some "July/2025", none⟩
      (fun _ => .abortError)).fetched[4]? = some key ∧ key.length = 12 :=
  ⟨by decide,
   (C10_suffix_overflow ⟨some "22104134998", some "2024", some "V", some "July/2025", none⟩
     (fun _ => .abortError) "22104134998" 998 rfl (by decide) (by decide) (by decide)).1,
   (C10_suffix_overflow ⟨some "22104134998", some "2024", some "V", some "July/2025", none⟩
     (fun _ => .abortError) "22104134998" 998 rfl (by decide) (by decide) (by decide)).2.2⟩
